import Mathlib

/-!
Verification of the hierarchical task-priority QP compiler of pyrobolearn
(package pyrobolearn.priorities).

The development shallowly embeds:

* pyrobolearn/priorities/constraints/constraint.py : the Constraint class
  hierarchy (equality / bound / unilateral / bilateral constraint terms,
  composite constraints holding inner constraints, their accessor
  properties, and the combination operator Constraint.__add__);
* pyrobolearn/priorities/models/robot_model.py : the per-tick caching
  getters of RobotModelInterface;
* the soft- and hard-priority QP assembly described in the module
  docstring of constraint.py (the Task / compiler implementation itself
  is not part of the sources, so those definitions are modelled from the
  specification, as indicated in their doc comments).

Real numbers (numpy float arrays in the source) are modelled by the
rationals, so that all definitions are executable and exact.
-/

namespace PyRoboLearn

/-! ### Constraint terms (constraint.py)

The Python class hierarchy distinguishes, by subclassing, four leaf
kinds of constraints: EqualityConstraint, BoundConstraint,
UnilateralConstraint and BilateralConstraint.  A leaf (single)
constraint has an empty inner-constraint dict, so every public accessor
property falls through to the private defaulted methods
_get_lower_bound, _get_upper_bound, _get_equality_matrix, ...
(constraint.py lines 227-300 and 427-446).
-/

/-- The closed kind taxonomy of constraint terms (constraint.py classes
EqualityConstraint, BoundConstraint, UnilateralConstraint,
BilateralConstraint). -/
inductive CKind
  | equality
  | bound
  | unilateral
  | bilateral
deriving DecidableEq

/-- A single (leaf) constraint term together with the data of its kind.

Modelled from the spec: the concrete per-kind constraint subclasses
(which live under priorities/constraints/velocity, acceleration, torque,
force and override the private _get methods with their kind data) are
not part of the sources; following section 4.3 of the specification, a
leaf belongs to exactly one kind, fixed at construction, and carries the
data of that kind: an Equality term carries A_eq and b_eq, a Bound term
carries lb and ub, a Unilateral term carries a one-sided matrix
inequality, a Bilateral term a two-sided one. -/
inductive SingleConstraint
  | equality (A : List (List ℚ)) (b : List ℚ)
  | bound (lb ub : List ℚ)
  | unilateral (A : List (List ℚ)) (b : List ℚ) (lowerSided : Bool)
  | bilateral (A : List (List ℚ)) (bl bu : List ℚ)
deriving DecidableEq

/-- The kind a leaf constraint belongs to (in the source, the class of
the instance). -/
def SingleConstraint.kind : SingleConstraint → CKind
  | .equality _ _ => .equality
  | .bound _ _ => .bound
  | .unilateral _ _ _ => .unilateral
  | .bilateral _ _ _ => .bilateral

/-- Constraint._get_lower_bound (constraint.py line 427): the base class
returns the empty list; only a Bound subclass overrides it with its
lower bound. -/
def SingleConstraint.getLowerBound : SingleConstraint → List ℚ
  | .bound lb _ => lb
  | _ => []

/-- Constraint._get_upper_bound (constraint.py line 430): the base class
returns the empty list; only a Bound subclass overrides it with its
upper bound. -/
def SingleConstraint.getUpperBound : SingleConstraint → List ℚ
  | .bound _ ub => ub
  | _ => []

/-- Constraint._get_equality_matrix (constraint.py line 433): the base
class returns the empty list; only an Equality subclass overrides it
with its matrix A_eq. -/
def SingleConstraint.getEqualityMatrix : SingleConstraint → List (List ℚ)
  | .equality A _ => A
  | _ => []

/-- Constraint._get_equality_vector (constraint.py line 436): the base
class returns the empty list; only an Equality subclass overrides it
with its vector b_eq. -/
def SingleConstraint.getEqualityVector : SingleConstraint → List ℚ
  | .equality _ b => b
  | _ => []

/-- The public property Constraint.lower_bound evaluated on a leaf
constraint (constraint.py lines 227-237): the inner-constraint dict is
empty, so it returns self._get_lower_bound(). -/
def SingleConstraint.lower_bound (c : SingleConstraint) : List ℚ :=
  c.getLowerBound

/-- The public property Constraint.upper_bound evaluated on a leaf
constraint (constraint.py lines 239-249): the inner-constraint dict is
empty, so it returns self._get_upper_bound(). -/
def SingleConstraint.upper_bound (c : SingleConstraint) : List ℚ :=
  c.getUpperBound

/-- The public property Constraint.A_eq evaluated on a leaf constraint
(constraint.py lines 251-261): the inner-constraint dict is empty, so it
returns self._get_equality_matrix(). -/
def SingleConstraint.A_eq (c : SingleConstraint) : List (List ℚ) :=
  c.getEqualityMatrix

/-- The public property Constraint.b_eq evaluated on a leaf constraint
(constraint.py lines 263-273).  The source body of b_eq returns
self._get_equality_matrix() - not the equality vector - so this
definition calls getEqualityMatrix, mirroring line 273 of the source
exactly. -/
def SingleConstraint.b_eq (c : SingleConstraint) : List (List ℚ) :=
  c.getEqualityMatrix

/-- The public property Constraint.k evaluated on a leaf constraint
(constraint.py lines 336-343): it returns self.b_eq. -/
def SingleConstraint.k (c : SingleConstraint) : List (List ℚ) :=
  c.b_eq

/-! ### Composite constraints

A Constraint built with a list of inner constraints stores them in a
dict keyed by kind class (the constraints setter, constraint.py lines
193-225).  The public accessors then map the corresponding accessor over
the inner constraints of the matching kind; with no inner constraints
they fall back to the private defaulted methods.  The three inequality
accessors A_ineq, b_lower_bound and b_upper_bound instead read the
attributes self._A_ineq, self._b_lower_bound, self._b_upper_bound, which
no code of the base class ever assigns; an unset attribute is modelled
by none (reading it raises AttributeError in Python). -/

/-- The Constraint class of constraint.py with a (possibly empty) set of
inner leaf constraints, partitioned by kind exactly as the constraints
setter partitions its dict, plus the three inequality attributes and the
model reference. -/
structure Constraint where
  eqConstraints : List SingleConstraint
  boundConstraints : List SingleConstraint
  unilateralConstraints : List SingleConstraint
  bilateralConstraints : List SingleConstraint
  ineqMatrixAttr : Option (List (List ℚ))
  ineqLowerAttr : Option (List ℚ)
  ineqUpperAttr : Option (List ℚ)
  model : Option Unit
deriving DecidableEq

/-- Constraint.has_constraints (constraint.py line 378): true when the
inner-constraint dict is nonempty, i.e. when at least one inner
constraint was given. -/
def Constraint.hasConstraints (c : Constraint) : Bool :=
  !(c.eqConstraints.isEmpty && c.boundConstraints.isEmpty &&
    c.unilateralConstraints.isEmpty && c.bilateralConstraints.isEmpty)

/-- The object built by the bare constructor call Constraint()
(constraint.py line 504): no inner constraints, no model, and the
attributes _A_ineq, _b_lower_bound, _b_upper_bound left unset. -/
def Constraint.empty : Constraint :=
  ⟨[], [], [], [], none, none, none, none⟩

/-- The public property Constraint.lower_bound (constraint.py lines
227-237): with inner constraints, the list of the lower_bound of each
inner Bound constraint; otherwise self._get_lower_bound(), which the
base class defaults to the empty list. -/
def Constraint.lower_bound (c : Constraint) : List (List ℚ) :=
  if c.hasConstraints then c.boundConstraints.map SingleConstraint.lower_bound
  else []

/-- The public property Constraint.upper_bound (constraint.py lines
239-249).  The comprehension on line 248 of the source reads
constraint.lower_bound for each inner Bound constraint (not
constraint.upper_bound), and this definition mirrors that line
exactly. -/
def Constraint.upper_bound (c : Constraint) : List (List ℚ) :=
  if c.hasConstraints then c.boundConstraints.map SingleConstraint.lower_bound
  else []

/-- The public property Constraint.A_eq (constraint.py lines 251-261):
with inner constraints, the list of the A_eq of each inner Equality
constraint; otherwise self._get_equality_matrix(), which the base class
defaults to the empty list. -/
def Constraint.A_eq (c : Constraint) : List (List (List ℚ)) :=
  if c.hasConstraints then c.eqConstraints.map SingleConstraint.A_eq
  else []

/-- The public property Constraint.b_eq (constraint.py lines 263-273).
The comprehension on line 272 of the source reads constraint.A_eq for
each inner Equality constraint, and the fallback on line 273 calls
self._get_equality_matrix(); this definition mirrors those lines
exactly. -/
def Constraint.b_eq (c : Constraint) : List (List (List ℚ)) :=
  if c.hasConstraints then c.eqConstraints.map SingleConstraint.A_eq
  else []

/-- The public property Constraint.A_ineq (constraint.py lines 275-282):
returns self._A_ineq, an attribute the base class never assigns; none
models the resulting AttributeError. -/
def Constraint.A_ineq (c : Constraint) : Option (List (List ℚ)) :=
  c.ineqMatrixAttr

/-- The public property Constraint.b_lower_bound (constraint.py lines
284-291): returns self._b_lower_bound, an attribute the base class never
assigns; none models the resulting AttributeError. -/
def Constraint.b_lower_bound (c : Constraint) : Option (List ℚ) :=
  c.ineqLowerAttr

/-- The public property Constraint.b_upper_bound (constraint.py lines
293-300): returns self._b_upper_bound, an attribute the base class never
assigns; none models the resulting AttributeError. -/
def Constraint.b_upper_bound (c : Constraint) : Option (List ℚ) :=
  c.ineqUpperAttr

/-- Constraint.__add__ (constraint.py lines 479-504).  The body builds a
local copy of the inner-constraint dict of the left operand (lines
494-501; the merge of the right operand is guarded by an isinstance test
on dict keys that is never true, and the local value is never used) and
then returns the fresh object Constraint() on line 504. -/
def Constraint.add (c1 c2 : Constraint) : Constraint :=
  let _merged :=
    (c1.eqConstraints, c1.boundConstraints, c1.unilateralConstraints,
     c1.bilateralConstraints, c2)
  Constraint.empty

/-! ### The model interface (robot_model.py)

RobotModelInterface wraps a robot and caches per-tick state in the dict
self.states.  The getters for joint positions, velocities and
accelerations first look the value up in the cache and only query the
underlying robot on a miss (robot_model.py lines 71-117); the getter for
the CoM Jacobian forwards to the robot on every call (lines 128-135).
The underlying robot is modelled as a fixed record of the values its
queries return within the tick, and the interface state carries the
cache plus a counter of how many queries reached the robot. -/

/-- The underlying robot: the values its state queries return during the
current tick (robot.get_joint_positions() and so on are deterministic
within a tick). -/
structure Robot where
  q : List ℚ
  dq : List ℚ
  ddq : List ℚ
  comJacobian : List (List ℚ)
deriving DecidableEq

/-- The mutable state of a RobotModelInterface: the cache dict
self.states (one optional entry per cached key) and a counter of the
queries issued to the underlying robot. -/
structure ModelState where
  cachedQ : Option (List ℚ)
  cachedDq : Option (List ℚ)
  cachedDdq : Option (List ℚ)
  robotQueries : ℕ
deriving DecidableEq

/-- A freshly invalidated interface state: empty cache, no robot queries
issued yet. -/
def ModelState.fresh : ModelState :=
  ⟨none, none, none, 0⟩

/-- RobotModelInterface.get_joint_positions (robot_model.py lines
71-85): return the cached entry states[q] when present; otherwise query
the robot, cache the result and return it. -/
def get_joint_positions (r : Robot) (s : ModelState) : List ℚ × ModelState :=
  match s.cachedQ with
  | some v => (v, s)
  | none => (r.q, { s with cachedQ := some r.q, robotQueries := s.robotQueries + 1 })

/-- RobotModelInterface.get_joint_velocities (robot_model.py lines
87-101): return the cached entry states[dq] when present; otherwise
query the robot, cache the result and return it. -/
def get_joint_velocities (r : Robot) (s : ModelState) : List ℚ × ModelState :=
  match s.cachedDq with
  | some v => (v, s)
  | none => (r.dq, { s with cachedDq := some r.dq, robotQueries := s.robotQueries + 1 })

/-- RobotModelInterface.get_joint_accelerations (robot_model.py lines
103-117): return the cached entry states[ddq] when present; otherwise
query the robot, cache the result and return it. -/
def get_joint_accelerations (r : Robot) (s : ModelState) : List ℚ × ModelState :=
  match s.cachedDdq with
  | some v => (v, s)
  | none => (r.ddq, { s with cachedDdq := some r.ddq, robotQueries := s.robotQueries + 1 })

/-- RobotModelInterface.get_com_jacobian (robot_model.py lines 128-135):
return self.model.get_com_jacobian() directly - no cache lookup and no
cache store, so every call is a robot query. -/
def get_com_jacobian (r : Robot) (s : ModelState) : List (List ℚ) × ModelState :=
  (r.comJacobian, { s with robotQueries := s.robotQueries + 1 })

/-! ### Soft and hard priority QP assembly

The module docstring of constraint.py (lines 6-101) fixes the standard
QP form: minimize (1/2) x^T Q x + p^T x subject to G x <= h and F x = k,
with Q = A^T W A and p = -2 A^T W b for the objective term
norm(A x - b, W)^2, soft priorities summing the weighted terms, and hard
priorities solving levels sequentially with the frozen equality
constraint A_i x = A_i xstar_i appended for every solved level.  The Task
class and the compilers implementing this (pyrobolearn/priorities/tasks/
task.py and the solvers) are not part of the sources, so the assembly is
modelled from the specification below. -/

/-- One objective term of a soft-priority level over n optimization
variables: minimize norm(A x - b, W)^2.

Modelled from the spec: the ObjectiveTerm data (matrix A, target b,
weight matrix W; specification section 3 and 4.2); the Task class
holding these attributes is not part of the sources. -/
structure ObjectiveTerm (n : ℕ) where
  m : ℕ
  A : Matrix (Fin m) (Fin n) ℚ
  b : Fin m → ℚ
  W : Matrix (Fin m) (Fin m) ℚ

/-- The quadratic cost norm(A x - b)^2 of one task at the decision
vector x (constraint.py docstring lines 20-26 with W the identity). -/
def taskCost {m n : ℕ} (A : Matrix (Fin m) (Fin n) ℚ) (b : Fin m → ℚ)
    (x : Fin n → ℚ) : ℚ :=
  ∑ i, (A.mulVec x i - b i) ^ 2

/-- The weighted quadratic cost norm(A x - b, W)^2 of one objective term
at the decision vector x (constraint.py docstring line 23). -/
def weightedTaskCost {n : ℕ} (t : ObjectiveTerm n) (x : Fin n → ℚ) : ℚ :=
  Matrix.dotProduct (fun i => t.A.mulVec x i - t.b i)
    (t.W.mulVec (fun i => t.A.mulVec x i - t.b i))

/-- Soft-priority assembly of the quadratic matrix Q.

Modelled from the spec (section 4.4): given the ordered list of
(ObjectiveTerm, scalar weight) pairs, Q is the sum over the terms of
w_i * A_i^T W_i A_i. -/
def softQ {n : ℕ} (L : List (ObjectiveTerm n × ℚ)) : Matrix (Fin n) (Fin n) ℚ :=
  (L.map fun tw => tw.2 • (tw.1.A.transpose * tw.1.W * tw.1.A)).sum

/-- Soft-priority assembly of the linear vector p.

Modelled from the spec (section 4.4): p is minus the sum over the terms
of w_i times the transpose of the row vector 2 b_i^T W_i A_i. -/
def softP {n : ℕ} (L : List (ObjectiveTerm n × ℚ)) : Fin n → ℚ :=
  -(L.map fun tw => tw.2 • ((2 : ℚ) • Matrix.vecMul tw.1.b (tw.1.W * tw.1.A))).sum

/-- The compiled soft-priority objective evaluated at x, in the
quadratic form x^T Q x + p^T x produced by expanding the sum of the
weighted task costs (constraint.py docstring line 23: the constant term
b^T W b is dropped). -/
def softObjective {n : ℕ} (L : List (ObjectiveTerm n × ℚ)) (x : Fin n → ℚ) : ℚ :=
  Matrix.dotProduct x ((softQ L).mulVec x) + Matrix.dotProduct (softP L) x

/-- The frozen equality constraint of the hard-priority cascade.

Modelled from the spec (section 4.6 and constraint.py docstring lines
74-101): after level j is solved with solution xstar, every later level
must satisfy the equality constraint A_j x = A_j xstar. -/
def frozenLevelConstraint {m n : ℕ} (A : Matrix (Fin m) (Fin n) ℚ)
    (xstar x : Fin n → ℚ) : Prop :=
  A.mulVec x = A.mulVec xstar

/-! ## Theorems about the constraint terms -/

/-- Claim C4 (counterexample): an accessor that is not valid for the
kind of the term does not fail; it returns the base-class default, the
empty list.  Here A_eq on a Bound term and upper_bound on an Equality
term both evaluate to the empty list (the accessor bodies contain no
raise statement, and no InvalidAccessorError exists in the source), so
the claim that they raise InvalidAccessorError is false. -/
theorem invalid_accessor_returns_value :
    SingleConstraint.A_eq (SingleConstraint.bound [2] [1]) = [] ∧
    SingleConstraint.upper_bound (SingleConstraint.equality [[1]] [1]) = [] :=
  ⟨rfl, rfl⟩

/-- Claim C4 (amended): calling a kind-specific accessor that is not
valid for the kind of the term returns the base-class default (the
empty list) rather than raising: A_eq and b_eq on a term that is not an
Equality term return the empty list, and lower_bound and upper_bound on
a term that is not a Bound term return the empty list. -/
theorem invalid_accessor_returns_default (c : SingleConstraint) :
    (c.kind ≠ CKind.equality → c.A_eq = [] ∧ c.b_eq = []) ∧
    (c.kind ≠ CKind.bound → c.lower_bound = [] ∧ c.upper_bound = []) := by
  cases c <;>
    simp [SingleConstraint.kind, SingleConstraint.A_eq, SingleConstraint.b_eq,
      SingleConstraint.lower_bound, SingleConstraint.upper_bound,
      SingleConstraint.getEqualityMatrix, SingleConstraint.getLowerBound,
      SingleConstraint.getUpperBound]

/-- Claim C4 (witness): the amended theorem applied to a concrete Bound
term (for A_eq) and a concrete Equality term (for lower_bound). -/
theorem invalid_accessor_returns_default_witness :
    SingleConstraint.A_eq (SingleConstraint.bound [3] [4]) = [] ∧
    SingleConstraint.lower_bound (SingleConstraint.equality [[2]] [2]) = [] :=
  ⟨((invalid_accessor_returns_default (SingleConstraint.bound [3] [4])).1
      (by decide)).1,
    ((invalid_accessor_returns_default (SingleConstraint.equality [[2]] [2])).2
      (by decide)).1⟩

/-- Claim C5 (counterexample): compiling the Bound term with lb = 2 and
ub = 1 on the same variable raises nothing; the accessors return the
conflicting pair unchanged (lower bound 2 and upper bound 1), which is
what reaches the solver.  No InfeasibleBoundsError and no feasibility
check of any kind exists in the source, so the claim that compilation
fails fast on lb > ub is false. -/
theorem bound_conflict_not_detected :
    SingleConstraint.lower_bound (SingleConstraint.bound [2] [1]) = [2] ∧
    SingleConstraint.upper_bound (SingleConstraint.bound [2] [1]) = [1] :=
  ⟨rfl, rfl⟩

/-- Claim C5 (amended): constraint compilation performs no feasibility
check on bounds: for every Bound term, the lower_bound and upper_bound
accessors return the stored bounds unchanged, also when the lower bound
exceeds the upper bound. -/
theorem bound_compilation_passes_bounds_through (lb ub : List ℚ) :
    SingleConstraint.lower_bound (SingleConstraint.bound lb ub) = lb ∧
    SingleConstraint.upper_bound (SingleConstraint.bound lb ub) = ub :=
  ⟨rfl, rfl⟩

/-- Claim C7 (counterexample): on a Constraint with no inner constraints
and no kind-specific data (the object built by Constraint()), the
inequality accessor A_ineq does not return an empty block: it reads the
attribute _A_ineq that no code ever assigned, which raises
AttributeError in Python (modelled by none), so the claim that every
accessor returns an empty collection is false. -/
theorem empty_constraint_ineq_accessor_absent :
    Constraint.A_ineq Constraint.empty = none ∧
    Constraint.b_lower_bound Constraint.empty = none ∧
    Constraint.b_upper_bound Constraint.empty = none :=
  ⟨rfl, rfl, rfl⟩

/-- Claim C7 (amended): on every Constraint with no inner constraints
and no kind-specific data, the accessors lower_bound, upper_bound, A_eq
and b_eq return the empty list, while the inequality accessors A_ineq,
b_lower_bound and b_upper_bound fail with AttributeError (modelled by
none) because the backing attributes are never initialized. -/
theorem empty_constraint_accessor_blocks (c : Constraint)
    (hno : c.hasConstraints = false)
    (hm : c.ineqMatrixAttr = none) (hl : c.ineqLowerAttr = none)
    (hu : c.ineqUpperAttr = none) :
    c.lower_bound = [] ∧ c.upper_bound = [] ∧ c.A_eq = [] ∧ c.b_eq = [] ∧
    c.A_ineq = none ∧ c.b_lower_bound = none ∧ c.b_upper_bound = none := by
  simp [Constraint.lower_bound, Constraint.upper_bound, Constraint.A_eq,
    Constraint.b_eq, Constraint.A_ineq, Constraint.b_lower_bound,
    Constraint.b_upper_bound, hno, hm, hl, hu]

/-- Claim C7 (witness): the amended theorem applied to the empty
Constraint. -/
theorem empty_constraint_accessor_blocks_witness :
    Constraint.lower_bound Constraint.empty = [] ∧
    Constraint.upper_bound Constraint.empty = [] ∧
    Constraint.A_eq Constraint.empty = [] ∧
    Constraint.b_eq Constraint.empty = [] ∧
    Constraint.A_ineq Constraint.empty = none ∧
    Constraint.b_lower_bound Constraint.empty = none ∧
    Constraint.b_upper_bound Constraint.empty = none :=
  empty_constraint_accessor_blocks Constraint.empty rfl rfl rfl rfl

/-- Claim C8: on a composite Constraint holding one inner Bound
constraint with lb = [1] and ub = [2], the upper_bound accessor returns
[[1]] - the list of the inner lower bounds, because line 248 of
constraint.py reads constraint.lower_bound inside the comprehension of
the upper_bound property - while the upper bounds of the inner Bound
constraints are [[2]].  The lower_bound accessor returns [[1]] as the
claim states.  This contradicts the docstring of the property (Return
the upper bound of the optimization variables), so it is a bug in the
code. -/
theorem upper_bound_returns_inner_lower_bounds :
    Constraint.upper_bound
      ⟨[], [SingleConstraint.bound [1] [2]], [], [], none, none, none, none⟩
      = [[1]] ∧
    List.map SingleConstraint.upper_bound [SingleConstraint.bound [1] [2]]
      = [[2]] ∧
    Constraint.lower_bound
      ⟨[], [SingleConstraint.bound [1] [2]], [], [], none, none, none, none⟩
      = [[1]] :=
  ⟨rfl, rfl, rfl⟩

/-- Claim C9: on an Equality term with A_eq = [[1, 0]] and
b_eq = [5], the b_eq accessor returns [[1, 0]] - the equality matrix,
because line 273 of constraint.py calls _get_equality_matrix() (and
line 272 reads constraint.A_eq in the composite case) - identical to
what the A_eq accessor returns and different from the stored equality
vector [5].  The k property returns self.b_eq and therefore the matrix
as well.  This contradicts the docstring of the property (Return the
equality constraint vector), so it is a bug in the code. -/
theorem b_eq_returns_equality_matrix :
    SingleConstraint.b_eq (SingleConstraint.equality [[1, 0]] [5]) = [[1, 0]] ∧
    SingleConstraint.A_eq (SingleConstraint.equality [[1, 0]] [5]) = [[1, 0]] ∧
    SingleConstraint.getEqualityVector (SingleConstraint.equality [[1, 0]] [5])
      = [5] ∧
    SingleConstraint.k (SingleConstraint.equality [[1, 0]] [5]) = [[1, 0]] :=
  ⟨rfl, rfl, rfl, rfl⟩

/-- Claim C10: for every pair of Constraint instances, the combination
operator returns the freshly constructed empty Constraint - no inner
constraints, no model, all data of both operands discarded. -/
theorem constraint_add_returns_fresh_empty (c1 c2 : Constraint) :
    Constraint.add c1 c2 = Constraint.empty ∧
    (Constraint.add c1 c2).hasConstraints = false ∧
    (Constraint.add c1 c2).model = none :=
  ⟨rfl, rfl, rfl⟩

/-! ## Theorems about the model interface -/

/-- Claim C6 (counterexample): two calls to get_com_jacobian without an
intervening invalidation issue two queries to the underlying model, not
one: the getter has no cache.  The claim that every getter queries the
model once per tick is therefore false for get_com_jacobian. -/
theorem com_jacobian_not_cached :
    ((get_com_jacobian ⟨[1], [0], [0], [[1]]⟩
        (get_com_jacobian ⟨[1], [0], [0], [[1]]⟩ ModelState.fresh).2).2).robotQueries
      = 2 ∧ (2 : ℕ) ≠ 1 :=
  ⟨rfl, by decide⟩

/-- Claim C6 (amended): within a tick, get_joint_positions,
get_joint_velocities and get_joint_accelerations are idempotent - the
second call returns the same value and leaves the interface state
unchanged, so the underlying model is queried at most once per getter -
while get_com_jacobian returns the same value (the model is
deterministic within the tick) but issues a fresh model query on every
call, since it is not cached. -/
theorem getter_caching_per_tick (r : Robot) (s : ModelState) :
    (get_joint_positions r (get_joint_positions r s).2).1
      = (get_joint_positions r s).1 ∧
    (get_joint_positions r (get_joint_positions r s).2).2
      = (get_joint_positions r s).2 ∧
    (get_joint_velocities r (get_joint_velocities r s).2).1
      = (get_joint_velocities r s).1 ∧
    (get_joint_velocities r (get_joint_velocities r s).2).2
      = (get_joint_velocities r s).2 ∧
    (get_joint_accelerations r (get_joint_accelerations r s).2).1
      = (get_joint_accelerations r s).1 ∧
    (get_joint_accelerations r (get_joint_accelerations r s).2).2
      = (get_joint_accelerations r s).2 ∧
    (get_com_jacobian r (get_com_jacobian r s).2).1
      = (get_com_jacobian r s).1 ∧
    ((get_com_jacobian r (get_com_jacobian r s).2).2).robotQueries
      = s.robotQueries + 2 := by
  refine ⟨?_, ?_, ?_, ?_, ?_, ?_, rfl, rfl⟩
  · cases h : s.cachedQ <;> simp [get_joint_positions, h]
  · cases h : s.cachedQ <;> simp [get_joint_positions, h]
  · cases h : s.cachedDq <;> simp [get_joint_velocities, h]
  · cases h : s.cachedDq <;> simp [get_joint_velocities, h]
  · cases h : s.cachedDdq <;> simp [get_joint_accelerations, h]
  · cases h : s.cachedDdq <;> simp [get_joint_accelerations, h]

/-! ## Theorems about the priority compilers -/

/-- Claim C1: hard-priority non-degradation.  For a two-level
hard-priority problem in which level 0 is solved on its own with
solution xstar0, every decision vector of level 1 satisfying the frozen
equality constraint A0 x = A0 xstar0 - in particular the final solution
of the cascade - has the same level-0 cost as xstar0, the value of
level 0 solved in isolation. -/
theorem hard_priority_preserves_level0_cost {m n : ℕ}
    (A0 : Matrix (Fin m) (Fin n) ℚ) (b0 : Fin m → ℚ) (xstar0 xfinal : Fin n → ℚ)
    (_hsolved : ∀ y : Fin n → ℚ, taskCost A0 b0 xstar0 ≤ taskCost A0 b0 y)
    (hfrozen : frozenLevelConstraint A0 xstar0 xfinal) :
    taskCost A0 b0 xfinal = taskCost A0 b0 xstar0 := by
  unfold frozenLevelConstraint at hfrozen
  unfold taskCost
  rw [hfrozen]

/-- Claim C1 (witness): the scenario of section 8 of the specification,
level 0 with A0 = [[1, 1]] and b0 = [3], solved alone by
xstar0 = [3, 0] (cost 0, minimal), and the level-1 vector
xfinal = [2, 1], which satisfies the frozen constraint x0 + x1 = 3 and
indeed keeps the level-0 cost at its isolated value. -/
theorem hard_priority_preserves_level0_cost_witness :
    taskCost !![(1 : ℚ), 1] ![3] ![2, 1] = taskCost !![(1 : ℚ), 1] ![3] ![3, 0] := by
  have hmin : ∀ y : Fin 2 → ℚ,
      taskCost !![(1 : ℚ), 1] ![3] ![3, 0] ≤ taskCost !![(1 : ℚ), 1] ![3] y := by
    intro y
    have h0 : taskCost !![(1 : ℚ), 1] ![3] ![3, 0] = 0 := by
      simp [taskCost, Matrix.mulVec, Matrix.dotProduct, Fin.sum_univ_succ]
    rw [h0]
    unfold taskCost
    exact Finset.sum_nonneg fun i _ => sq_nonneg _
  have hfr : frozenLevelConstraint !![(1 : ℚ), 1] ![3, 0] ![2, 1] := by
    unfold frozenLevelConstraint
    funext i
    fin_cases i
    simp [Matrix.mulVec, Matrix.dotProduct, Fin.sum_univ_succ]
    norm_num
  exact hard_priority_preserves_level0_cost !![(1 : ℚ), 1] ![3] ![3, 0] ![2, 1] hmin hfr

/-- Claim C2: soft-priority assembly.  For every ordered list of
(ObjectiveTerm, scalar weight) pairs whose weight matrices are
symmetric, the compiled quadratic matrix is
Q = sum of w_i * A_i^T W_i A_i and the compiled linear vector is
p = -2 times the sum of w_i * A_i^T W_i b_i. -/
theorem soft_priority_assembly_formula {n : ℕ} (L : List (ObjectiveTerm n × ℚ))
    (hW : ∀ t ∈ L, (t.1.W).IsSymm) :
    softQ L = (L.map fun tw => tw.2 • (tw.1.A.transpose * tw.1.W * tw.1.A)).sum ∧
    softP L = (-2 : ℚ) •
      (L.map fun tw => tw.2 • (tw.1.A.transpose * tw.1.W).mulVec tw.1.b).sum := by
  refine ⟨rfl, ?_⟩
  revert hW
  induction L with
  | nil => intro _; simp [softP]
  | cons hd tl ih =>
    intro hW
    have hsymm : (hd.1.W).transpose = hd.1.W := (hW hd (List.mem_cons_self hd tl)).eq
    have htl := ih fun t ht => hW t (List.mem_cons_of_mem hd ht)
    have hvec : Matrix.vecMul hd.1.b (hd.1.W * hd.1.A)
        = (hd.1.A.transpose * hd.1.W).mulVec hd.1.b := by
      rw [← Matrix.mulVec_transpose, Matrix.transpose_mul, hsymm]
    simp only [softP, List.map_cons, List.sum_cons] at htl ⊢
    rw [hvec, neg_add, htl, smul_add]
    congr 1
    rw [smul_smul, smul_smul, ← neg_smul]
    congr 1
    ring

/-- Claim C2 (witness): the assembly formula applied to a concrete
one-term list with the symmetric weight matrix [[1]]. -/
theorem soft_priority_assembly_formula_witness :
    softP [((⟨1, !![(1 : ℚ), 0], ![1], !![1]⟩ : ObjectiveTerm 2), (1 : ℚ))] =
      (-2 : ℚ) •
        ([((⟨1, !![(1 : ℚ), 0], ![1], !![1]⟩ : ObjectiveTerm 2), (1 : ℚ))].map
          fun tw => tw.2 • (tw.1.A.transpose * tw.1.W).mulVec tw.1.b).sum := by
  refine (soft_priority_assembly_formula _ ?_).2
  intro t ht
  simp only [List.mem_singleton] at ht
  subst ht
  show Matrix.transpose !![(1 : ℚ)] = !![(1 : ℚ)]
  funext i j
  fin_cases i
  fin_cases j
  rfl

/-- The two objective terms of the end-to-end soft-priority scenario of
section 8 of the specification: T1 with A = [[1, 0]], b = [1], W = 1 and
T2 with A = [[0, 1]], b = [2], W = 1, both with scalar weight 1. -/
def scenarioTerms : List (ObjectiveTerm 2 × ℚ) :=
  [(⟨1, !![1, 0], ![1], !![1]⟩, 1), (⟨1, !![0, 1], ![2], !![1]⟩, 1)]

/-- Evaluation of the compiled quadratic matrix on the scenario
terms. -/
lemma scenarioQ_eval : softQ scenarioTerms = !![1, 0; 0, 1] := by
  unfold softQ scenarioTerms
  ext i j
  fin_cases i <;> fin_cases j
  all_goals simp [Matrix.mul_apply, Fin.sum_univ_succ]

/-- Evaluation of the compiled linear vector on the scenario terms. -/
lemma scenarioP_eval : softP scenarioTerms = ![-2, -4] := by
  unfold softP scenarioTerms
  funext j
  fin_cases j
  all_goals simp [Matrix.vecMul, Matrix.dotProduct, Matrix.mul_apply, Fin.sum_univ_succ]
  norm_num

/-- Claim C3 (counterexample): the soft-priority compiler applied to the
scenario terms produces the quadratic matrix diag(1, 1) - the formula
Q = sum of w_i * A_i^T W_i A_i of the module docstring carries no factor
2 - so Q is not diag(2, 2) as the claim states. -/
theorem soft_scenario_Q_not_double :
    softQ scenarioTerms ≠ !![2, 0; 0, 2] := by
  rw [scenarioQ_eval]
  intro h
  have h00 := congrFun (congrFun h 0) 0
  simp at h00

/-- Claim C3 (amended): compiling the scenario terms as one
soft-priority level with equal weights produces Q = diag(1, 1) and
p = [-2, -4], and the vector x = [1, 2] minimizes the compiled
objective x^T Q x + p^T x (which equals the total task cost up to the
dropped constant). -/
theorem soft_scenario_amended :
    softQ scenarioTerms = !![1, 0; 0, 1] ∧
    softP scenarioTerms = ![-2, -4] ∧
    ∀ x : Fin 2 → ℚ,
      softObjective scenarioTerms ![1, 2] ≤ softObjective scenarioTerms x := by
  refine ⟨scenarioQ_eval, scenarioP_eval, ?_⟩
  intro x
  unfold softObjective
  rw [scenarioQ_eval, scenarioP_eval]
  simp [Matrix.dotProduct, Matrix.mulVec, Fin.sum_univ_succ]
  nlinarith [sq_nonneg (x 0 - 1), sq_nonneg (x 1 - 2)]

end PyRoboLearn
